import Mathlib

/-!
Shallow embedding of the data-retrieval/caching layer of the
OurVoiceOurRights dashboard (`src/utils.py` and `src/app.py`).

The Local Store (SQLite table `district_metrics`) is modelled as a list of
rows; timestamps are seconds as `Int` (the source stores them as
`'%Y-%m-%d %H:%M:%S'` strings whose lexicographic MAX agrees with the
chronological one); `datetime.now()` is modelled by an explicit `now`
parameter threaded through each call; monetary decimals are `ℚ`.
-/

namespace OurVoice

/-- A row of the `district_metrics` table (`utils.py`, `init_database`):
key columns `(state, district, year, month)`, the four metric columns and
`updated_at`. -/
structure StoreRow where
  state : String
  district : String
  year : Int
  month : Int
  households : Int
  person_days : Int
  expenditure : ℚ
  avg_wage : ℚ
  updated_at : Int
deriving DecidableEq

/-- The Local Store: the list of rows of `district_metrics`. -/
abbrev Store := List StoreRow

/-- A record as delivered by the Remote Source or passed to
`save_to_cache`: the six data fields read out of each `record` dict in
`save_to_cache` (`record['year']`, ..., `record['avg_wage']`). -/
structure DataRecord where
  year : Int
  month : Int
  households : Int
  person_days : Int
  expenditure : ℚ
  avg_wage : ℚ
deriving DecidableEq

/-- A record of the bundled `offline_data.json` file: the same data fields
plus the `state` and `district` columns used for filtering. -/
structure OfflineRecord where
  state : String
  district : String
  year : Int
  month : Int
  households : Int
  person_days : Int
  expenditure : ℚ
  avg_wage : ℚ
deriving DecidableEq

/-- Row filter of `get_cache_timestamp` / `get_from_cache`:
`WHERE state = ? AND district = ?`. -/
def byKey (state district : String) (r : StoreRow) : Bool :=
  r.state == state && r.district == district

/-- Helper for `get_cache_timestamp`, which takes `SELECT MAX(updated_at) ...`; this is the
maximum of a list of timestamps, `none` on the empty list (SQL NULL). -/
def maxTime : List Int → Option Int
  | [] => none
  | t :: ts =>
    match maxTime ts with
    | none => some t
    | some m => some (max t m)

/-- Model of `utils.get_cache_timestamp`: `SELECT MAX(updated_at) FROM
district_metrics WHERE state = ? AND district = ?`; `None` when no row
matches. -/
def get_cache_timestamp (store : Store) (state district : String) : Option Int :=
  maxTime ((store.filter (byKey state district)).map (·.updated_at))

/-- Model of `utils.is_cache_valid`: the cache for `(state, district)` is valid when
a timestamp exists and `(datetime.now() - cache_time).total_seconds() <
ttl_seconds`. The source's default `ttl_seconds=86400` is passed explicitly
by callers here. -/
def is_cache_valid (store : Store) (state district : String) (now ttl : Int) : Bool :=
  match get_cache_timestamp store state district with
  | none => false
  | some t => decide (now - t < ttl)

/-- The row written by `save_to_cache` for one input record: the key comes
from the `state`/`district` arguments, the data fields from the record, and
`updated_at` is `datetime.now()` — any timestamp carried by the source
record is not read at all. -/
def mkRow (state district : String) (rec : DataRecord) (now : Int) : StoreRow :=
  ⟨state, district, rec.year, rec.month, rec.households, rec.person_days,
    rec.expenditure, rec.avg_wage, now⟩

/-- One `INSERT OR REPLACE` against `UNIQUE(state, district, year, month)`:
any row with the same key is removed and the new row inserted. -/
def upsert (store : Store) (row : StoreRow) : Store :=
  store.filter (fun r =>
    !(r.state == row.state && r.district == row.district &&
      r.year == row.year && r.month == row.month)) ++ [row]

/-- Model of `utils.save_to_cache`: one `INSERT OR REPLACE` per record of
`data_list`, each with `updated_at = datetime.now()`. -/
def save_to_cache (store : Store) (state district : String)
    (data_list : List DataRecord) (now : Int) : Store :=
  data_list.foldl (fun s rec => upsert s (mkRow state district rec now)) store

/-- The `ORDER BY year DESC, month DESC` ordering of `get_from_cache`. -/
def cacheOrder (a b : StoreRow) : Prop :=
  b.year < a.year ∨ (a.year = b.year ∧ b.month ≤ a.month)

instance : DecidableRel cacheOrder := fun a b => by
  unfold cacheOrder; infer_instance

/-- Model of `utils.get_from_cache`: all rows for `(state, district)`, ordered by
`year DESC, month DESC`. -/
def get_from_cache (store : Store) (state district : String) : List StoreRow :=
  (store.filter (byKey state district)).insertionSort cacheOrder

/-- Failure modes of the Remote Source named by the spec: network failure
and malformed payload — the exceptions the `try`/`except` of
`fetch_from_api` can catch. -/
inductive ApiError
  | networkFailure
  | malformedPayload
deriving DecidableEq

/-- Model of `utils.fetch_from_api`: the body of the `try` block either returns a
value (`Except.ok`; the checked-in demo body returns `None`, i.e.
`Except.ok none`) or raises (`Except.error`); the `except` clause turns any
raised error into `None`. -/
def fetch_from_api (body : Except ApiError (Option (List DataRecord))) :
    Option (List DataRecord) :=
  match body with
  | Except.ok v => v
  | Except.error _ => none

/-- The checked-in demo body of `fetch_from_api`: `return None`. -/
def fetch_from_api_demo : Option (List DataRecord) :=
  fetch_from_api (Except.ok none)

/-- Model of `utils.load_offline_data`: the parsed contents of `offline_data.json`
(`[]` when the file is absent) filtered by state, and by district when one
is given. -/
def load_offline_data (data : List OfflineRecord) (state : String)
    (district : Option String) : List OfflineRecord :=
  match district with
  | some d => data.filter (fun r => r.state == state && r.district == d)
  | none => data.filter (fun r => r.state == state)

/-- The data fields of an offline record, as read by `save_to_cache` from
`df.to_dict('records')`. -/
def offlineToData (r : OfflineRecord) : DataRecord :=
  ⟨r.year, r.month, r.households, r.person_days, r.expenditure, r.avg_wage⟩

/-- Provenance of a result of `get_district_data` (`data_source`):
`"cache"`, `"api"` (the spec's `fresh`), `"offline"`. -/
inductive Source
  | cache
  | api
  | offline
deriving DecidableEq

/-- The DataFrame returned by `get_district_data`; the three branches build
it from different column sets (cache rows with `updated_at`, raw API
records, offline records). -/
inductive ResultDF
  | cacheDF (rows : List StoreRow)
  | apiDF (rows : List DataRecord)
  | offlineDF (rows : List OfflineRecord)
deriving DecidableEq

/-- Emptiness (`df.empty`) of a `ResultDF`. -/
def ResultDF.isEmpty : ResultDF → Bool
  | .cacheDF rows => rows.isEmpty
  | .apiDF rows => rows.isEmpty
  | .offlineDF rows => rows.isEmpty

/-- The full outcome of one `get_district_data` call: the returned triple
`(df, data_source, timestamp)`, the Local Store as left behind, and an
instrumentation bit recording whether `fetch_from_api` was invoked. -/
structure FetchResult where
  df : ResultDF
  source : Source
  timestamp : Option Int
  store : Store
  apiCalled : Bool
deriving DecidableEq

/-- Model of `app.get_district_data`: the tiered Retrieval Policy.
Step 1: if `is_cache_valid`, return the cached rows (`data_source`
survives at its initial value `"cache"`). Otherwise call
`fetch_from_api`; a truthy (non-`None`, non-empty) payload is saved and
returned as `"api"` with `timestamp = now`. Otherwise re-read the cache;
if empty, fall back to the offline dataset (saved when non-empty) with
`data_source = "offline"`; a non-empty stale cache keeps
`data_source = "cache"`. In the fallback branches the timestamp is
re-read from the (possibly updated) store. -/
def get_district_data (store : Store) (offline : List OfflineRecord)
    (apiBody : Except ApiError (Option (List DataRecord)))
    (state district : String) (now : Int) : FetchResult :=
  if is_cache_valid store state district now 86400 then
    { df := ResultDF.cacheDF (get_from_cache store state district)
      source := Source.cache
      timestamp := get_cache_timestamp store state district
      store := store
      apiCalled := false }
  else
    match fetch_from_api apiBody with
    | some (rec :: recs) =>
      { df := ResultDF.apiDF (rec :: recs)
        source := Source.api
        timestamp := some now
        store := save_to_cache store state district (rec :: recs) now
        apiCalled := true }
    | _ =>
      let df := get_from_cache store state district
      if df.isEmpty then
        let off := load_offline_data offline state (some district)
        let store2 :=
          if off.isEmpty then store
          else save_to_cache store state district (off.map offlineToData) now
        { df := ResultDF.offlineDF off
          source := Source.offline
          timestamp := get_cache_timestamp store2 state district
          store := store2
          apiCalled := true }
      else
        { df := ResultDF.cacheDF df
          source := Source.cache
          timestamp := get_cache_timestamp store state district
          store := store
          apiCalled := true }

/-- Reading one full key `(state, district, year, month)` out of the Local
Store: the rows of `get_from_cache state district` whose `year`/`month`
match. Under `UNIQUE(state, district, year, month)` this is at most one
row. -/
def readKey (store : Store) (state district : String) (year month : Int) :
    List StoreRow :=
  (get_from_cache store state district).filter
    (fun r => r.year == year && r.month == month)

/-- The per-year Person-Days total of the year-over-year block of `app.py`
(lines 493-507 and 612-613): for each month in `range(5, 11)` take the
first matching record's `person_days` (months with no record contribute
nothing) and sum. -/
def yoyTotal (df : List StoreRow) (y : Int) : Int :=
  ((List.range' 5 6).map (fun m =>
    match df.filter (fun r => r.year == y && r.month == (m : Int)) with
    | [] => 0
    | r :: _ => r.person_days)).sum

/-- The year-over-year percentage change of `app.py` lines 615-616:
computed as `((latest_total - prev_total) / prev_total) * 100` only under
the guard `prev_total > 0`; otherwise nothing is computed. -/
def yoy_change (latest_total prev_total : Int) : Option ℚ :=
  if 0 < prev_total then
    some ((((latest_total : ℚ) - (prev_total : ℚ)) / (prev_total : ℚ)) * 100)
  else none

/-- Python `int(...)` on a rational value: truncation toward zero. -/
def pyTruncInt (q : ℚ) : Int := q.num.tdiv q.den

/-- Floor of a rational: `num.fdiv den` (the denominator is positive). -/
def ratFloor (q : ℚ) : Int := q.num.fdiv q.den

/-- Python `round(...)` to an integer: round half to even (modelled on
exact rationals; binary floating-point representation error is out of
scope of this embedding). -/
def roundHalfEven (q : ℚ) : Int :=
  let f := ratFloor q
  if q - (f : ℚ) < 1/2 then f
  else if (1 : ℚ)/2 < q - (f : ℚ) then f + 1
  else if f % 2 = 0 then f else f + 1

/-- Python `round(x, 2)`. -/
def pyRound2 (q : ℚ) : ℚ := ((roundHalfEven (q * 100) : ℚ)) / 100

/-- The rows that `get_state_average` aggregates over:
`WHERE state = ? AND year = ? AND month = ?`. -/
def stateRows (store : Store) (state : String) (year month : Int) :
    List StoreRow :=
  store.filter (fun r => r.state == state && r.year == year && r.month == month)

/-- SQL `AVG` of a list of values (callers guarantee non-emptiness before
using it). -/
def meanQ (l : List ℚ) : ℚ := l.sum / (l.length : ℚ)

/-- The dictionary returned by `get_state_average`. -/
structure StateAvg where
  households : Int
  person_days : Int
  expenditure : ℚ
  avg_wage : ℚ
deriving DecidableEq

/-- Model of `utils.get_state_average`: `AVG` of each metric over the rows matching
`(state, year, month)`. With no matching row SQL yields NULLs and the
guard `if result and result[0]` fails; the same guard also fails when the
households average is `0.0` (a falsy float), returning `None` in both
cases. Otherwise the households and person-days averages pass through
Python `int(...)` and the expenditure and wage averages through
`round(..., 2)`. -/
def get_state_average (store : Store) (state : String) (year month : Int) :
    Option StateAvg :=
  let rows := stateRows store state year month
  if rows.isEmpty then none
  else
    let avgH := meanQ (rows.map (fun r => (r.households : ℚ)))
    if avgH = 0 then none
    else
      some ⟨pyTruncInt avgH,
        pyTruncInt (meanQ (rows.map (fun r => (r.person_days : ℚ)))),
        pyRound2 (meanQ (rows.map (·.expenditure))),
        pyRound2 (meanQ (rows.map (·.avg_wage)))⟩

/-! ## Helper lemmas -/

/-- Every member of a timestamp list is bounded by its `maxTime`. -/
theorem maxTime_le_of_mem {l : List Int} {x : Int} (h : x ∈ l) :
    ∃ m, maxTime l = some m ∧ x ≤ m := by
  induction l with
  | nil => cases h
  | cons t ts ih =>
    rcases List.mem_cons.mp h with rfl | hmem
    · cases hts : maxTime ts with
      | none => exact ⟨x, by simp [maxTime, hts], le_refl x⟩
      | some m => exact ⟨max x m, by simp [maxTime, hts], le_max_left x m⟩
    · obtain ⟨m, hm, hle⟩ := ih hmem
      exact ⟨max t m, by simp [maxTime, hm], le_trans hle (le_max_right t m)⟩

/-- A member of an upserted store is an old row or the new row. -/
theorem mem_upsert {s : Store} {row r : StoreRow} (h : r ∈ upsert s row) :
    r ∈ s ∨ r = row := by
  rcases List.mem_append.mp h with hl | hr
  · exact Or.inl (List.mem_filter.mp hl).1
  · simp at hr; exact Or.inr hr

/-- Unfolding one step of the `save_to_cache` fold. -/
theorem save_to_cache_cons (s : Store) (st d : String) (rec : DataRecord)
    (rest : List DataRecord) (now : Int) :
    save_to_cache s st d (rec :: rest) now =
      save_to_cache (upsert s (mkRow st d rec now)) st d rest now := rfl

/-- Rows present after `save_to_cache` are either pre-existing rows or
carry `updated_at = now`. -/
theorem mem_save_to_cache {s : Store} {st d : String} {data : List DataRecord}
    {now : Int} {r : StoreRow} (h : r ∈ save_to_cache s st d data now) :
    r ∈ s ∨ r.updated_at = now := by
  induction data generalizing s with
  | nil => exact Or.inl h
  | cons rec rest ih =>
    rw [save_to_cache_cons] at h
    rcases ih h with hmem | hup
    · rcases mem_upsert hmem with h1 | rfl
      · exact Or.inl h1
      · exact Or.inr rfl
    · exact Or.inr hup

/-- After a non-empty `save_to_cache` the store holds a row for the saved
key stamped with the write time. -/
theorem save_has_now_row {data : List DataRecord} (hdata : data ≠ [])
    (s : Store) (st d : String) (now : Int) :
    ∃ r, r ∈ save_to_cache s st d data now ∧ byKey st d r = true ∧
      r.updated_at = now := by
  induction data generalizing s with
  | nil => exact absurd rfl hdata
  | cons rec rest ih =>
    rw [save_to_cache_cons]
    cases rest with
    | nil =>
      refine ⟨mkRow st d rec now, ?_, by simp [byKey, mkRow], rfl⟩
      simp [save_to_cache, upsert]
    | cons r2 rs => exact ih (by simp) (upsert s (mkRow st d rec now))

/-- Within the TTL of a non-empty write, the cache for the written key is
valid. -/
theorem is_cache_valid_save {data : List DataRecord} (hdata : data ≠ [])
    (s : Store) (st d : String) {now t : Int} (h : t - now < 86400) :
    is_cache_valid (save_to_cache s st d data now) st d t 86400 = true := by
  obtain ⟨r, hmem, hkey, hup⟩ := save_has_now_row hdata s st d now
  have hfil : r ∈ (save_to_cache s st d data now).filter (byKey st d) :=
    List.mem_filter.mpr ⟨hmem, hkey⟩
  have hmap : r.updated_at ∈
      ((save_to_cache s st d data now).filter (byKey st d)).map (·.updated_at) :=
    List.mem_map_of_mem _ hfil
  obtain ⟨m, hm, hle⟩ := maxTime_le_of_mem hmap
  rw [hup] at hle
  simp only [is_cache_valid, get_cache_timestamp, hm]
  simp; omega

/-- Reading the full key of a just-upserted row yields exactly that row:
the sort of `get_from_cache` permutes the filtered rows, the upsert removed
every other row with the same key, and the new row matches its own key. -/
theorem readKey_upsert (s : Store) (row : StoreRow) :
    readKey (upsert s row) row.state row.district row.year row.month = [row] := by
  have hperm : (readKey (upsert s row) row.state row.district row.year row.month).Perm
      (((upsert s row).filter (byKey row.state row.district)).filter
        (fun r => r.year == row.year && r.month == row.month)) := by
    exact (List.perm_insertionSort cacheOrder _).filter _
  have heq : (((upsert s row).filter (byKey row.state row.district)).filter
      (fun r => r.year == row.year && r.month == row.month)) = [row] := by
    simp only [upsert, List.filter_append]
    have h1 : (List.filter (byKey row.state row.district) [row]).filter
        (fun r => r.year == row.year && r.month == row.month) = [row] := by
      simp [byKey]
    rw [h1]
    have h2 : ((List.filter (fun r =>
        !(r.state == row.state && r.district == row.district &&
          r.year == row.year && r.month == row.month)) s).filter
        (byKey row.state row.district)).filter
        (fun r => r.year == row.year && r.month == row.month) = [] := by
      rw [List.filter_eq_nil_iff]
      intro a ha
      have hmem1 := List.mem_filter.mp ha
      have hmem2 := List.mem_filter.mp hmem1.1
      have hnot := hmem2.2
      have hk := hmem1.2
      simp [byKey] at hk hnot ⊢
      obtain ⟨hs, hd⟩ := hk
      intro hy hm
      rcases hnot with ((h | h) | h) | h <;> exact absurd (by assumption) h
    rw [h2]
    simp
  exact List.Perm.eq_singleton (heq ▸ hperm)

/-! ## The claims -/

/-- Claim C1: when the Local Store holds records for `(state, district)`
(witnessed by a cache timestamp `ts`) and that most recent `updated_at`
is within the 24-hour freshness window, `get_district_data` returns the
stored records tagged `cached` with that timestamp, leaves the store
unchanged, and never invokes the Remote Source — for every possible
Remote Source behaviour `apiBody`. -/
theorem claim_C1 (store : Store) (offline : List OfflineRecord)
    (apiBody : Except ApiError (Option (List DataRecord)))
    (state district : String) (now ts : Int)
    (hts : get_cache_timestamp store state district = some ts)
    (hfresh : now - ts < 86400) :
    get_district_data store offline apiBody state district now =
      { df := ResultDF.cacheDF (get_from_cache store state district)
        source := Source.cache
        timestamp := some ts
        store := store
        apiCalled := false } := by
  have hv : is_cache_valid store state district now 86400 = true := by
    simp [is_cache_valid, hts, hfresh]
  simp [get_district_data, hv, hts]

/-- Witness for claim C1 at a one-row store, one hour after the write. -/
theorem claim_C1_witness :
    get_cache_timestamp [(⟨"UP", "Lucknow", 2024, 6, 100, 2000, 500000, 230, 1000⟩ : StoreRow)] "UP" "Lucknow" = some 1000 ∧
    get_district_data [(⟨"UP", "Lucknow", 2024, 6, 100, 2000, 500000, 230, 1000⟩ : StoreRow)] [] (Except.ok none) "UP" "Lucknow" 2000 =
      { df := ResultDF.cacheDF (get_from_cache [(⟨"UP", "Lucknow", 2024, 6, 100, 2000, 500000, 230, 1000⟩ : StoreRow)] "UP" "Lucknow")
        source := Source.cache
        timestamp := some 1000
        store := [(⟨"UP", "Lucknow", 2024, 6, 100, 2000, 500000, 230, 1000⟩ : StoreRow)]
        apiCalled := false } :=
  ⟨by decide, claim_C1 _ _ _ _ _ _ _ (by decide) (by decide)⟩

/-- Claim C2: when the cache is stale or absent and the Remote Source
succeeds with a non-empty payload, `get_district_data` persists the
payload into the Local Store via `save_to_cache` (upsert) and returns it
tagged `fresh` (`"api"`) with timestamp `now`. -/
theorem claim_C2 (store : Store) (offline : List OfflineRecord)
    (apiBody : Except ApiError (Option (List DataRecord)))
    (state district : String) (now : Int) (payload : List DataRecord)
    (hstale : is_cache_valid store state district now 86400 = false)
    (hapi : fetch_from_api apiBody = some payload)
    (hne : payload ≠ []) :
    get_district_data store offline apiBody state district now =
      { df := ResultDF.apiDF payload
        source := Source.api
        timestamp := some now
        store := save_to_cache store state district payload now
        apiCalled := true } := by
  cases payload with
  | nil => exact absurd rfl hne
  | cons rec recs => simp [get_district_data, hstale, hapi]

/-- Witness for claim C2 on an empty store and a one-record payload. -/
theorem claim_C2_witness :
    is_cache_valid [] "UP" "Lucknow" 5 86400 = false ∧
    get_district_data [] [] (Except.ok (some [(⟨2024, 6, 10, 20, 30, 40⟩ : DataRecord)])) "UP" "Lucknow" 5 =
      { df := ResultDF.apiDF [(⟨2024, 6, 10, 20, 30, 40⟩ : DataRecord)]
        source := Source.api
        timestamp := some 5
        store := save_to_cache [] "UP" "Lucknow" [(⟨2024, 6, 10, 20, 30, 40⟩ : DataRecord)] 5
        apiCalled := true } :=
  ⟨by decide, claim_C2 _ _ _ _ _ _ _ (by decide) (by decide) (by decide)⟩

/-- Claim C3: when the Local Store holds nothing for the key, the Remote
Source fails, and the Offline Dataset has matching records,
`get_district_data` persists those records into the Local Store and
returns them tagged `offline`; and any subsequent call for the same key
within the freshness window (any Remote Source behaviour `apiBody2`)
reports provenance `cached`. -/
theorem claim_C3 (store : Store) (offline : List OfflineRecord)
    (apiBody apiBody2 : Except ApiError (Option (List DataRecord)))
    (state district : String) (now t : Int)
    (hEmpty : store.filter (byKey state district) = [])
    (hApi : fetch_from_api apiBody = none)
    (hOff : load_offline_data offline state (some district) ≠ [])
    (hFresh : t - now < 86400) :
    get_district_data store offline apiBody state district now =
      { df := ResultDF.offlineDF (load_offline_data offline state (some district))
        source := Source.offline
        timestamp := get_cache_timestamp
          (save_to_cache store state district
            ((load_offline_data offline state (some district)).map offlineToData) now)
          state district
        store := save_to_cache store state district
          ((load_offline_data offline state (some district)).map offlineToData) now
        apiCalled := true } ∧
    (get_district_data
      (save_to_cache store state district
        ((load_offline_data offline state (some district)).map offlineToData) now)
      offline apiBody2 state district t).source = Source.cache := by
  have hts : get_cache_timestamp store state district = none := by
    simp [get_cache_timestamp, hEmpty, maxTime]
  have hv : is_cache_valid store state district now 86400 = false := by
    simp [is_cache_valid, hts]
  have hgfc : get_from_cache store state district = [] := by
    simp [get_from_cache, hEmpty, List.insertionSort]
  have hOffE : (load_offline_data offline state (some district)).isEmpty = false := by
    simpa [List.isEmpty_iff] using hOff
  have hmapne : (load_offline_data offline state (some district)).map offlineToData ≠ [] := by
    simpa using hOff
  have hv2 : is_cache_valid
      (save_to_cache store state district
        ((load_offline_data offline state (some district)).map offlineToData) now)
      state district t 86400 = true :=
    is_cache_valid_save hmapne store state district hFresh
  constructor
  · simp [get_district_data, hv, hApi, hgfc, hOffE]
  · simp [get_district_data, hv2]

/-- Witness for claim C3: empty store, failing remote, one offline row;
the follow-up call ten seconds later reads from cache. -/
theorem claim_C3_witness :
    load_offline_data [(⟨"UP", "Lucknow", 2024, 6, 1, 2, 3, 4⟩ : OfflineRecord)] "UP" (some "Lucknow") ≠ [] ∧
    (get_district_data [] [(⟨"UP", "Lucknow", 2024, 6, 1, 2, 3, 4⟩ : OfflineRecord)] (Except.ok none) "UP" "Lucknow" 50 =
      { df := ResultDF.offlineDF (load_offline_data [(⟨"UP", "Lucknow", 2024, 6, 1, 2, 3, 4⟩ : OfflineRecord)] "UP" (some "Lucknow"))
        source := Source.offline
        timestamp := get_cache_timestamp
          (save_to_cache [] "UP" "Lucknow"
            ((load_offline_data [(⟨"UP", "Lucknow", 2024, 6, 1, 2, 3, 4⟩ : OfflineRecord)] "UP" (some "Lucknow")).map offlineToData) 50)
          "UP" "Lucknow"
        store := save_to_cache [] "UP" "Lucknow"
          ((load_offline_data [(⟨"UP", "Lucknow", 2024, 6, 1, 2, 3, 4⟩ : OfflineRecord)] "UP" (some "Lucknow")).map offlineToData) 50
        apiCalled := true } ∧
    (get_district_data
      (save_to_cache [] "UP" "Lucknow"
        ((load_offline_data [(⟨"UP", "Lucknow", 2024, 6, 1, 2, 3, 4⟩ : OfflineRecord)] "UP" (some "Lucknow")).map offlineToData) 50)
      [(⟨"UP", "Lucknow", 2024, 6, 1, 2, 3, 4⟩ : OfflineRecord)] (Except.ok none) "UP" "Lucknow" 60).source = Source.cache) :=
  ⟨by decide, claim_C3 [] _ _ _ "UP" "Lucknow" 50 60 (by decide) (by decide) (by decide) (by decide)⟩

/-- Claim C4: when the Local Store has no rows for the key, the Remote
Source yields nothing (failure or empty payload), and the Offline Dataset
has no matching records, `get_district_data` returns an empty result set
with no timestamp and an unchanged store; the embedding is a total
function, so no exception is raised on this path. -/
theorem claim_C4 (store : Store) (offline : List OfflineRecord)
    (apiBody : Except ApiError (Option (List DataRecord)))
    (state district : String) (now : Int)
    (hEmpty : store.filter (byKey state district) = [])
    (hApi : fetch_from_api apiBody = none ∨ fetch_from_api apiBody = some [])
    (hOff : load_offline_data offline state (some district) = []) :
    get_district_data store offline apiBody state district now =
      { df := ResultDF.offlineDF []
        source := Source.offline
        timestamp := none
        store := store
        apiCalled := true } := by
  have hts : get_cache_timestamp store state district = none := by
    simp [get_cache_timestamp, hEmpty, maxTime]
  have hv : is_cache_valid store state district now 86400 = false := by
    simp [is_cache_valid, hts]
  have hgfc : get_from_cache store state district = [] := by
    simp [get_from_cache, hEmpty, List.insertionSort]
  rcases hApi with hApi | hApi <;>
    simp [get_district_data, hv, hApi, hgfc, hOff, hts]

/-- Witness for claim C4: every tier empty for the requested key. -/
theorem claim_C4_witness :
    ([] : Store).filter (byKey "UP" "Lucknow") = [] ∧
    get_district_data [] [(⟨"MH", "Pune", 2024, 6, 1, 2, 3, 4⟩ : OfflineRecord)] (Except.ok none) "UP" "Lucknow" 7 =
      { df := ResultDF.offlineDF []
        source := Source.offline
        timestamp := none
        store := []
        apiCalled := true } :=
  ⟨by decide, claim_C4 _ _ _ _ _ _ (by decide) (Or.inl (by decide)) (by decide)⟩

/-- Claim C5: writing a record for key `K = (state, district, year, month)`
and immediately reading `K` returns exactly that record (stamped with the
write time), and after a second write for the same key differing only in
the `households` field, reading `K` returns only the second value — the
key is unique and later writes replace earlier ones. -/
theorem claim_C5 (store : Store) (state district : String) (rec : DataRecord)
    (h2 : Int) (now now2 : Int) :
    readKey (save_to_cache store state district [rec] now)
        state district rec.year rec.month = [mkRow state district rec now] ∧
    readKey (save_to_cache (save_to_cache store state district [rec] now)
        state district [{ rec with households := h2 }] now2)
        state district rec.year rec.month =
      [mkRow state district { rec with households := h2 } now2] :=
  ⟨readKey_upsert store (mkRow state district rec now),
   readKey_upsert (save_to_cache store state district [rec] now)
     (mkRow state district { rec with households := h2 } now2)⟩

/-- Claim C6: every Remote Source failure mode is caught inside
`fetch_from_api` and turned into `None`, and the whole retrieval call then
behaves exactly as if the Remote Source had returned no data — the failure
never propagates, it only selects the fallback branch. -/
theorem claim_C6 (e : ApiError) (store : Store) (offline : List OfflineRecord)
    (state district : String) (now : Int) :
    fetch_from_api (Except.error e) = none ∧
    get_district_data store offline (Except.error e) state district now =
      get_district_data store offline (Except.ok none) state district now :=
  ⟨rfl, rfl⟩

/-- Claim C7: when the cache is stale (timestamp `ts` at least 24 hours
old), the Remote Source fails or returns nothing, and the Local Store is
non-empty for the key, `get_district_data` returns the stale stored
records tagged `cached` with the store timestamp `ts` surfaced to the
caller. -/
theorem claim_C7 (store : Store) (offline : List OfflineRecord)
    (apiBody : Except ApiError (Option (List DataRecord)))
    (state district : String) (now ts : Int)
    (hts : get_cache_timestamp store state district = some ts)
    (hstale : 86400 ≤ now - ts)
    (hApi : fetch_from_api apiBody = none ∨ fetch_from_api apiBody = some [])
    (hne : get_from_cache store state district ≠ []) :
    get_district_data store offline apiBody state district now =
      { df := ResultDF.cacheDF (get_from_cache store state district)
        source := Source.cache
        timestamp := some ts
        store := store
        apiCalled := true } := by
  have hv : is_cache_valid store state district now 86400 = false := by
    simp [is_cache_valid, hts]; omega
  have hie : (get_from_cache store state district).isEmpty = false := by
    simpa [List.isEmpty_iff] using hne
  rcases hApi with hApi | hApi <;>
    simp [get_district_data, hv, hApi, hie, hts]

/-- Witness for claim C7: a one-row store written 99000 seconds before the
call, with the demo (always failing) remote body. -/
theorem claim_C7_witness :
    get_cache_timestamp [(⟨"UP", "Lucknow", 2024, 6, 100, 2000, 500000, 230, 1000⟩ : StoreRow)] "UP" "Lucknow" = some 1000 ∧
    get_district_data [(⟨"UP", "Lucknow", 2024, 6, 100, 2000, 500000, 230, 1000⟩ : StoreRow)] [] (Except.ok none) "UP" "Lucknow" 100000 =
      { df := ResultDF.cacheDF (get_from_cache [(⟨"UP", "Lucknow", 2024, 6, 100, 2000, 500000, 230, 1000⟩ : StoreRow)] "UP" "Lucknow")
        source := Source.cache
        timestamp := some 1000
        store := [(⟨"UP", "Lucknow", 2024, 6, 100, 2000, 500000, 230, 1000⟩ : StoreRow)]
        apiCalled := true } :=
  ⟨by decide, claim_C7 _ _ _ _ _ _ _ (by decide) (by decide) (Or.inl (by decide)) (by decide)⟩

/-- Claim C8: when the previous year's Person-Days total is zero, the
year-over-year percentage change is not computed at all (the `prev_total
> 0` guard fails), so no divide-by-zero and no infinite value can arise. -/
theorem claim_C8 (df : List StoreRow) (latestYear prevYear : Int)
    (hzero : yoyTotal df prevYear = 0) :
    yoy_change (yoyTotal df latestYear) (yoyTotal df prevYear) = none := by
  simp [yoy_change, hzero]

/-- Witness for claim C8 at an empty record set. -/
theorem claim_C8_witness :
    yoyTotal [] 2023 = 0 ∧
    yoy_change (yoyTotal [] 2024) (yoyTotal [] 2023) = none :=
  ⟨by decide, claim_C8 [] 2024 2023 (by decide)⟩

/-- Claim C9, counterexample to the claim as stated: this store has a
record matching `("S", 2023, 6)`, yet `get_state_average` returns `None`
rather than the arithmetic means, because the households average is `0`
and the source guard `if result and result[0]` treats the float `0.0` as
falsy. -/
theorem claim_C9_counterexample :
    stateRows [(⟨"S", "D", 2023, 6, 0, 5, 10, 2, 0⟩ : StoreRow)] "S" 2023 6 ≠ [] ∧
    get_state_average [(⟨"S", "D", 2023, 6, 0, 5, 10, 2, 0⟩ : StoreRow)] "S" 2023 6 = none := by
  constructor
  · decide
  · simp [get_state_average, stateRows, byKey, meanQ]

/-- Claim C9 as amended: for every `(state, year, month)` with at least one
matching record whose households values do not average to zero,
`get_state_average` returns the arithmetic means of the four numeric
fields, with the households and person-days means truncated by Python
`int(...)` and the expenditure and wage means rounded by
`round(..., 2)`. -/
theorem claim_C9_amended (store : Store) (state : String) (year month : Int)
    (hne : stateRows store state year month ≠ [])
    (hH : ((stateRows store state year month).map
      (fun r => r.households)).sum ≠ (0 : Int)) :
    get_state_average store state year month =
      some ⟨pyTruncInt (meanQ ((stateRows store state year month).map
          (fun r => (r.households : ℚ)))),
        pyTruncInt (meanQ ((stateRows store state year month).map
          (fun r => (r.person_days : ℚ)))),
        pyRound2 (meanQ ((stateRows store state year month).map (·.expenditure))),
        pyRound2 (meanQ ((stateRows store state year month).map (·.avg_wage)))⟩ := by
  have hie : (stateRows store state year month).isEmpty = false := by
    simpa [List.isEmpty_iff] using hne
  have hsum : ∀ l : List StoreRow,
      (l.map (fun r => (r.households : ℚ))).sum =
        ((((l.map (fun r => r.households)).sum : Int) : ℚ)) := by
    intro l
    induction l with
    | nil => simp
    | cons a t ih => simp [ih]
  have hlen0 : (stateRows store state year month).length ≠ 0 := by
    simpa using hne
  have hlen : ((stateRows store state year month).length : ℚ) ≠ 0 :=
    Nat.cast_ne_zero.mpr hlen0
  have havg : meanQ ((stateRows store state year month).map
      (fun r => (r.households : ℚ))) ≠ 0 := by
    unfold meanQ
    rw [List.length_map]
    refine div_ne_zero ?_ hlen
    rw [hsum _]
    exact_mod_cast hH
  simp [get_state_average, hie, havg]

/-- Witness for the amended claim C9 on a two-row store. -/
theorem claim_C9_amended_witness :
    stateRows [(⟨"S", "D", 2023, 6, 2, 4, 10, 3, 0⟩ : StoreRow), (⟨"S", "E", 2023, 6, 4, 6, 20, 5, 0⟩ : StoreRow)] "S" 2023 6 ≠ [] ∧
    ((stateRows [(⟨"S", "D", 2023, 6, 2, 4, 10, 3, 0⟩ : StoreRow), (⟨"S", "E", 2023, 6, 4, 6, 20, 5, 0⟩ : StoreRow)] "S" 2023 6).map (fun r => r.households)).sum ≠ (0 : Int) ∧
    get_state_average [(⟨"S", "D", 2023, 6, 2, 4, 10, 3, 0⟩ : StoreRow), (⟨"S", "E", 2023, 6, 4, 6, 20, 5, 0⟩ : StoreRow)] "S" 2023 6 =
      some ⟨pyTruncInt (meanQ ((stateRows [(⟨"S", "D", 2023, 6, 2, 4, 10, 3, 0⟩ : StoreRow), (⟨"S", "E", 2023, 6, 4, 6, 20, 5, 0⟩ : StoreRow)] "S" 2023 6).map
          (fun r => (r.households : ℚ)))),
        pyTruncInt (meanQ ((stateRows [(⟨"S", "D", 2023, 6, 2, 4, 10, 3, 0⟩ : StoreRow), (⟨"S", "E", 2023, 6, 4, 6, 20, 5, 0⟩ : StoreRow)] "S" 2023 6).map
          (fun r => (r.person_days : ℚ)))),
        pyRound2 (meanQ ((stateRows [(⟨"S", "D", 2023, 6, 2, 4, 10, 3, 0⟩ : StoreRow), (⟨"S", "E", 2023, 6, 4, 6, 20, 5, 0⟩ : StoreRow)] "S" 2023 6).map (·.expenditure))),
        pyRound2 (meanQ ((stateRows [(⟨"S", "D", 2023, 6, 2, 4, 10, 3, 0⟩ : StoreRow), (⟨"S", "E", 2023, 6, 4, 6, 20, 5, 0⟩ : StoreRow)] "S" 2023 6).map (·.avg_wage)))⟩ :=
  ⟨by decide, by decide, claim_C9_amended _ _ _ _ (by decide) (by decide)⟩

/-- Claim C10: every row added by `save_to_cache` — whatever the data
source — is stamped `updated_at = now` (source timestamps are never read),
and consequently, after any non-empty write, the step-1 freshness check
accepts the key for the following 24 hours. -/
theorem claim_C10 (store : Store) (state district : String)
    (data : List DataRecord) (now t : Int)
    (hdata : data ≠ []) (_hle : now ≤ t) (h2 : t - now < 86400) :
    (∀ r ∈ save_to_cache store state district data now,
      r ∈ store ∨ r.updated_at = now) ∧
    is_cache_valid (save_to_cache store state district data now)
      state district t 86400 = true :=
  ⟨fun _ hr => mem_save_to_cache hr, is_cache_valid_save hdata store state district h2⟩

/-- Witness for claim C10: a one-record write at time 50, checked at time
60. -/
theorem claim_C10_witness :
    ([(⟨2024, 6, 10, 20, 30, 40⟩ : DataRecord)] ≠ ([] : List DataRecord)) ∧
    (∀ r ∈ save_to_cache [] "UP" "Lucknow" [(⟨2024, 6, 10, 20, 30, 40⟩ : DataRecord)] 50,
      r ∈ ([] : Store) ∨ r.updated_at = 50) ∧
    is_cache_valid (save_to_cache [] "UP" "Lucknow" [(⟨2024, 6, 10, 20, 30, 40⟩ : DataRecord)] 50)
      "UP" "Lucknow" 60 86400 = true :=
  ⟨by decide, claim_C10 [] "UP" "Lucknow" _ 50 60 (by decide) (by decide) (by decide)⟩

end OurVoice
